import Mathlib

/-!
Verification development for the BillTracker application (src/app.py).

The Python source is shallowly embedded: each definition below carries a
comment naming the source function and lines it models.  External
collaborators (the JSON decoder of the standard library, the notification
delivery backend, the database commit) are passed in as explicit function
parameters, so every definition stays executable.  Calendar dates are
represented by their proleptic-Gregorian ordinal (an integer), which is how
Python date subtraction and date plus timedelta behave.
-/

namespace BillTracker

/-! Python string primitives, modelled character-wise (Python strings are
character sequences, and slicing counts characters).  They are written by
structural recursion on the character list so that the kernel can evaluate
them on literals. -/

/-- Python s.split(sep) for a one-character separator; the empty string
splits into one empty part. -/
def splitOnChar (c : Char) : List Char → List (List Char)
  | [] => [[]]
  | x :: xs =>
    if x = c then [] :: splitOnChar c xs
    else
      match splitOnChar c xs with
      | [] => [[x]]
      | p :: ps => (x :: p) :: ps

/-- Python s.startswith(p). -/
def pyStartsWith (s p : String) : Bool :=
  p.data.isPrefixOf s.data

/-- Python s.endswith(p). -/
def pyEndsWith (s p : String) : Bool :=
  p.data.reverse.isPrefixOf s.data.reverse

/-- Python slicing s[n:]. -/
def pyDrop (s : String) (n : Nat) : String :=
  ⟨s.data.drop n⟩

/-- Python slicing s[:-n] for positive n (here only applied after an
endswith check, so the string is at least n characters long). -/
def pyDropRight (s : String) (n : Nat) : String :=
  ⟨(s.data.reverse.drop n).reverse⟩

/-- Python slicing s[:n]. -/
def pyTake (s : String) (n : Nat) : String :=
  ⟨s.data.take n⟩

/-- Python s.strip() with no arguments: remove leading and trailing
whitespace. -/
def pyStrip (s : String) : String :=
  ⟨((s.data.dropWhile Char.isWhitespace).reverse.dropWhile Char.isWhitespace).reverse⟩

/-- Python s.lower() (ASCII case folding suffices here). -/
def pyLower (s : String) : String :=
  ⟨s.data.map Char.toLower⟩

/-- Numeric value of a list of decimal digits. -/
def digitsVal (cs : List Char) : Nat :=
  cs.foldl (fun a c => a * 10 + (c.toNat - 48)) 0

/-- Truthiness of an optional Python string: None and the empty string are
falsy, every other string is truthy. -/
def strOptTruthy : Option String → Bool
  | some s => s ≠ ""
  | none => false

/-- Values produced by json.loads: null, booleans, numbers, strings, arrays
and objects.  Numbers are modelled as rationals (Python ints and floats in
the ranges relevant here). -/
inductive Json where
  | null
  | jbool (b : Bool)
  | num (q : Rat)
  | str (s : String)
  | arr (xs : List Json)
  | obj (kvs : List (String × Json))
deriving Repr, Inhabited

/-- Python truthiness of a JSON-decoded value: None, False, 0, the empty
string, the empty list and the empty dict are falsy. -/
def Json.truthy : Json → Bool
  | .null => false
  | .jbool b => b
  | .num q => q ≠ 0
  | .str s => s ≠ ""
  | .arr xs => !xs.isEmpty
  | .obj kvs => !kvs.isEmpty

/-- Lookup modelling dict.get with default None on a dict built from a
key-value list (later duplicates of a key win, as in Python). -/
def jget (kvs : List (String × Json)) (k : String) : Json :=
  match kvs.reverse.find? (fun p => p.1 == k) with
  | some p => p.2
  | none => Json.null

/-! Calendar arithmetic used by datetime.date.  A date is identified with
its proleptic-Gregorian ordinal, so date subtraction is integer subtraction
and adding a timedelta of n days is adding n. -/

/-- Gregorian leap-year test, as in the Python calendar. -/
def isLeapYear (y : Nat) : Bool :=
  (y % 4 == 0 && y % 100 != 0) || y % 400 == 0

/-- Number of days in month m of year y (m between 1 and 12). -/
def daysInMonth (y m : Nat) : Nat :=
  if m = 2 then (if isLeapYear y then 29 else 28)
  else if m = 4 ∨ m = 6 ∨ m = 9 ∨ m = 11 then 30
  else 31

/-- Days in year y strictly before month m. -/
def daysBeforeMonth (y m : Nat) : Nat :=
  (List.range (m - 1)).foldl (fun acc i => acc + daysInMonth y (i + 1)) 0

/-- Proleptic-Gregorian ordinal of the date (y, m, d); day 1 is 0001-01-01,
matching datetime.date.toordinal. -/
def dateOrdinal (y m d : Nat) : Int :=
  ((365 * (y - 1) + (y - 1) / 4 + (y - 1) / 400 + daysBeforeMonth y m + d : Nat) : Int)
    - ((y - 1) / 100 : Nat)

/-- A month or day component accepted by strptime: one or two decimal
digits (zero padding optional in Python strptime). -/
def twoDigitComp (cs : List Char) : Option Nat :=
  if 1 ≤ cs.length && cs.length ≤ 2 && cs.all Char.isDigit then
    some (digitsVal cs)
  else none

/-- Model of datetime.strptime(s, the year-month-day format).date() from
app.py line 199: exactly three dash-separated components, a four-digit
year, one-or-two-digit month and day, whole string consumed, and the
resulting triple must be a real calendar date (year at least 1, day within
the month, leap years respected).  None models the ValueError branch. -/
def strptime_Ymd (s : String) : Option Int :=
  match splitOnChar '-' s.data with
  | [ys, ms, ds] =>
    if ys.length = 4 && ys.all Char.isDigit then
      match twoDigitComp ms, twoDigitComp ds with
      | some m, some d =>
        let y := digitsVal ys
        if 1 ≤ y && 1 ≤ m && m ≤ 12 && 1 ≤ d && d ≤ daysInMonth y m then
          some (dateOrdinal y m d)
        else none
      | _, _ => none
    else none
  | _ => none

/-! The Extraction Client: analyze_bill_ai, app.py lines 140-219. -/

/-- Transient extraction result built at app.py lines 195-203: the date key
is set only when a date string parsed (absent otherwise); the title and
amount keys are always set, to the verbatim values of data.get, with null
standing for a missing key. -/
structure AIResult where
  date : Option Int
  title : Json
  amount : Json
deriving Repr, Inhabited

/-- Date-field handling of app.py lines 197-200: a falsy date value leaves
the field absent; a truthy string is parsed with strptime and dropped on
ValueError; a truthy non-string makes strptime raise TypeError, which
escapes the inner except-ValueError handler (outer result None). -/
def parse_date_field (dv : Json) : Option (Option Int) :=
  if dv.truthy then
    match dv with
    | Json.str s => some (strptime_Ymd s)
    | _ => none
  else some none

/-- Parsing block of app.py lines 194-206 applied to the decoded JSON value.
The attribute access data.get on a non-dict raises AttributeError, caught by
the outer handler, hence None for every non-object payload. -/
def parse_result (data : Json) : Option AIResult :=
  match data with
  | Json.obj kvs =>
    match parse_date_field (jget kvs "date") with
    | none => none
    | some df => some ⟨df, jget kvs "title", jget kvs "amount"⟩
  | _ => none

/-- Extension extraction of app.py line 152: filepath.rsplit on the last
dot, lower-cased; a path without a dot raises IndexError (None here), which
the outer handler turns into a no-result return. -/
def extOf (filepath : String) : Option String :=
  match (splitOnChar '.' filepath.data).reverse with
  | ext :: _ :: _ => some (pyLower ⟨ext⟩)
  | _ => none

/-- MIME-type table of app.py lines 163-169. -/
def mimeOf (ext : String) : Option String :=
  if ext = "jpg" ∨ ext = "jpeg" then some "image/jpeg"
  else if ext = "png" then some "image/png"
  else if ext = "pdf" then some "application/pdf"
  else none

/-- Markdown fence stripping of app.py lines 188-191: drop a leading
json code fence of seven characters and a trailing fence of three. -/
def strip_fence (ans : String) : String :=
  let a := if pyStartsWith ans "```json" then pyDrop ans 7 else ans
  if pyEndsWith a "```" then pyDropRight a 3 else a

/-- The Extraction Client, analyze_bill_ai of app.py lines 140-219.
External effects are explicit parameters: apiKey is the GEMINI_API_KEY
environment value, net is the outcome of the model.generate_content call
(error models any raised exception, ok carries response.text), and loads
models json.loads (None models JSONDecodeError).  Every failure branch of
the source returns None to the caller. -/
def analyze_bill_ai (apiKey : Option String) (filepath : String)
    (net : Except String String) (loads : String → Option Json) : Option AIResult :=
  if strOptTruthy apiKey = false then none
  else
    match extOf filepath with
    | none => none
    | some ext =>
      match mimeOf ext with
      | none => none
      | some _ =>
        match net with
        | .error _ => none
        | .ok text =>
          let ans := strip_fence (pyStrip text)
          match loads (pyStrip ans) with
          | none => none
          | some data => parse_result data

/-! Notifications.  The jobs call send_notification with a fixed title, an
interpolated body and a target user; a dispatched notification is recorded
as the constructor matching the call site together with the interpolated
data (the bill title, the due date, the message subject) and the id of the
user passed as target. -/

/-- One dispatched notification: overdue and reminder from check_due_dates
(app.py lines 294 and 296), imported from process_mailbox (line 265). -/
inductive Notif where
  | overdue (title : String) (due : Int) (user_id : Nat)
  | reminder (title : String) (user_id : Nat)
  | imported (subject : String) (user_id : Nat)
deriving Repr, DecidableEq

/-! The Due-Date Reminder Job: check_due_dates, app.py lines 284-296. -/

/-- A row of the Bill table (columns used by the claims; app.py lines
77-87).  The status strings of the source are offen (open) and bezahlt
(paid); due_date is an optional date ordinal. -/
structure Bill where
  id : Nat
  title : String
  filename : String
  amount : Option Rat
  status : String
  due_date : Option Int
  user_id : Nat
deriving Repr, DecidableEq

/-- Body of the per-bill loop of check_due_dates (app.py lines 290-296):
skip a bill without a due date, otherwise classify by days remaining. -/
def bill_notif (today : Int) (b : Bill) : Option Notif :=
  match b.due_date with
  | none => none
  | some due =>
    if due - today ≤ 0 then some (Notif.overdue b.title due b.user_id)
    else if due - today = 3 then some (Notif.reminder b.title b.user_id)
    else none

/-- The whole job (app.py lines 284-296): only bills with status offen are
queried, then each is classified. -/
def check_due_dates (today : Int) (bills : List Bill) : List Notif :=
  (bills.filter (fun b => b.status == "offen")).filterMap (bill_notif today)

/-- Per-bill effect of one run of check_due_dates, the query filter fused
into the loop body: a bill that is not open contributes nothing. -/
def bill_check (today : Int) (b : Bill) : Option Notif :=
  if b.status = "offen" then bill_notif today b else none

/-! The Mailbox Ingestion Job: process_mailbox, app.py lines 222-267.
The clock is passed in explicitly: ts is the integer timestamp used for
stored-filename generation (line 231) and today the current date ordinal
(line 236).  The Extraction Client is an oracle from the stored filename to
its result, and commit_fails is an oracle saying whether db.session.commit
raises for a given new row on a given table state (the uniqueness
constraint on filename is its concrete instance). -/

/-- An email attachment (imap_tools): the filename may be missing. -/
structure Attachment where
  filename : Option String
deriving Repr, Inhabited

/-- An unseen email message: subject plus attachments. -/
structure MailMsg where
  subject : String
  attachments : List Attachment
deriving Repr, Inhabited

/-- The values passed to the Bill constructor at app.py lines 250-256
(title may be any extracted JSON value at this point; due_date is always
set; amount is optional). -/
structure NewBill where
  title : Json
  filename : String
  due_date : Int
  amount : Option Json
  user_id : Nat
deriving Repr, Inhabited

/-- Attachment filter of app.py line 230: the filename is truthy and its
lower-cased form ends in the pdf suffix. -/
def att_is_pdf (a : Attachment) : Bool :=
  match a.filename with
  | some f => f ≠ "" && pyEndsWith (pyLower f) ".pdf"
  | none => false

/-- Stored-filename generation of app.py line 231. -/
def secure_name (ts : Nat) (fname : String) : String :=
  toString ts ++ "_" ++ fname

/-- Due-date resolution of app.py lines 236, 241 and 246: extracted date if
the field is set (date objects are always truthy), else ingestion date plus
thirty days. -/
def resolve_due (today : Int) (ai : Option AIResult) : Int :=
  match ai with
  | some r => match r.date with
    | some d => d
    | none => today + 30
  | none => today + 30

/-- Title resolution of app.py lines 242 and 247: the extracted title when
truthy, else the message subject truncated to one hundred characters. -/
def resolve_title (subject : String) (ai : Option AIResult) : Json :=
  match ai with
  | some r => if r.title.truthy then r.title else Json.str (pyTake subject 100)
  | none => Json.str (pyTake subject 100)

/-- Amount resolution of app.py lines 243 and 248: the extracted amount
when truthy, else no amount. -/
def resolve_amount (ai : Option AIResult) : Option Json :=
  match ai with
  | some r => if r.amount.truthy then some r.amount else none
  | none => none

/-- The Bill row built for one pdf attachment (app.py lines 231-256). -/
def mail_bill (ts : Nat) (today : Int) (ai : String → Option AIResult)
    (owner : Nat) (subject : String) (a : Attachment) : NewBill :=
  let name := secure_name ts (a.filename.getD "")
  let ad := ai name
  { title := resolve_title subject ad
    filename := name
    due_date := resolve_due today ad
    amount := resolve_amount ad
    user_id := owner }

/-- The attachment loop of app.py lines 229-262 with its found_file flag:
a non-pdf attachment is skipped; a pdf attachment yields a new row, and the
commit either fails (session rollback, table unchanged, flag unchanged) or
appends the row and sets the flag. -/
def process_attachments (cf : List NewBill → NewBill → Bool) (ts : Nat)
    (today : Int) (ai : String → Option AIResult) (owner : Nat)
    (subject : String) : List Attachment → List NewBill → Bool → List NewBill × Bool
  | [], db, fd => (db, fd)
  | a :: rest, db, fd =>
    if att_is_pdf a then
      let nb := mail_bill ts today ai owner subject a
      if cf db nb then
        process_attachments cf ts today ai owner subject rest db fd
      else
        process_attachments cf ts today ai owner subject rest (db ++ [nb]) true
    else
      process_attachments cf ts today ai owner subject rest db fd

/-- Handling of one unseen message (app.py lines 227-265): messages without
attachments are skipped; after the attachment loop, one imported
notification goes to the owner exactly when the flag was set. -/
def process_message (cf : List NewBill → NewBill → Bool) (ts : Nat)
    (today : Int) (ai : String → Option AIResult) (owner : Nat)
    (m : MailMsg) (db : List NewBill) : List NewBill × List Notif :=
  if m.attachments.isEmpty then (db, [])
  else
    let r := process_attachments cf ts today ai owner m.subject m.attachments db false
    (r.1, if r.2 then [Notif.imported m.subject owner] else [])

/-- The message loop of process_mailbox (app.py lines 226-265), returning
the final Bill table and the dispatched notifications in order. -/
def process_mailbox (cf : List NewBill → NewBill → Bool) (ts : Nat)
    (today : Int) (ai : String → Option AIResult) (owner : Nat) :
    List MailMsg → List NewBill → List NewBill × List Notif
  | [], db => (db, [])
  | m :: ms, db =>
    let r := process_message cf ts today ai owner m db
    let rs := process_mailbox cf ts today ai owner ms r.1
    (rs.1, r.2 ++ rs.2)

/-! The Notification Dispatcher: send_notification, app.py lines 119-138. -/

/-- Target user as seen by the dispatcher: id and optional personal
notification endpoint. -/
structure NUser where
  id : Nat
  notify_url : Option String
deriving Repr, DecidableEq

/-- Endpoint resolution of app.py lines 120-127: the personal endpoint of
the given user when truthy, else the process-wide fallback when truthy,
else no endpoint. -/
def resolve_urls (globalUrl : Option String) (user : Option NUser) : List String :=
  let urls : List String :=
    match user with
    | some u =>
      match u.notify_url with
      | some s => if s = "" then [] else [s]
      | none => []
    | none => []
  if urls.isEmpty then
    match globalUrl with
    | some g => if g = "" then [] else [g]
    | none => []
  else urls

/-- The dispatcher (app.py lines 119-138).  The deliver oracle models the
apprise notify call; an exception (error) is caught and logged, so the
function returns the full list of attempted endpoints paired with their
outcome for every oracle. -/
def send_notification (globalUrl : Option String)
    (deliver : String → Except String Unit) (user : Option NUser) :
    List (String × Bool) :=
  (resolve_urls globalUrl user).map
    (fun u => (u, match deliver u with | .ok _ => true | .error _ => false))

/-! Deletion and file serving: delete_bill (app.py lines 578-598) and
serve_file (lines 600-615), over the store and the upload directory. -/

/-- A row of the BillFile table (app.py lines 100-103). -/
structure BillFile where
  id : Nat
  bill_id : Nat
  filename : String
deriving Repr, DecidableEq

/-- Store state visible to the two routes: the Bill table, the BillFile
table and the set of filenames present in the upload directory. -/
structure AppState where
  bills : List Bill
  billfiles : List BillFile
  fs : List String
deriving Repr, DecidableEq

/-- The delete route (app.py lines 578-598): first_or_404 on id and owner;
on a hit, remove the primary filename and every associated BillFile
filename from the upload directory, then delete the row, which cascades to
its BillFile rows.  None models the not-found response, returned before any
state is touched. -/
def delete_bill (uid : Nat) (bid : Nat) (st : AppState) : Option AppState :=
  match st.bills.find? (fun b => b.id == bid && b.user_id == uid) with
  | none => none
  | some bill =>
    let names := bill.filename ::
      ((st.billfiles.filter (fun f => f.bill_id == bill.id)).map BillFile.filename)
    some
      { bills := st.bills.filter (fun b => !(b.id == bill.id))
        billfiles := st.billfiles.filter (fun f => !(f.bill_id == bill.id))
        fs := st.fs.filter (fun n => decide (n ∉ names)) }

/-- Result of the file-serving route. -/
inductive ServeResult where
  | notFound
  | forbidden
  | ok (filename : String)
deriving Repr, DecidableEq

/-- Owner resolution of app.py lines 603-609: look the filename up as a
primary Bill filename, else as a BillFile filename following its bill
reference. -/
def resolve_bill (fname : String) (st : AppState) : Option Bill :=
  match st.bills.find? (fun b => b.filename == fname) with
  | some b => some b
  | none =>
    (st.billfiles.find? (fun f => f.filename == fname)).bind
      (fun bf => st.bills.find? (fun b => b.id == bf.bill_id))

/-- The file-serving route (app.py lines 600-615): not-found when no bill
owns the filename, forbidden when the owning bill belongs to another user,
else the file is streamed. -/
def serve_file (uid : Nat) (fname : String) (st : AppState) : ServeResult :=
  match resolve_bill fname st with
  | none => ServeResult.notFound
  | some b => if b.user_id ≠ uid then ServeResult.forbidden else ServeResult.ok fname

/-! The settings route: app.py lines 424-439. -/

/-- A row of the User table (app.py lines 66-75), ingestion and
notification fields included. -/
structure SUser where
  email : String
  password_hash : Option String
  name : Option String
  notify_url : Option String
  imap_server : Option String
  imap_user : Option String
  imap_password : Option String
deriving Repr, DecidableEq

/-- The submitted settings form; request.form.get yields none for a
missing field. -/
structure SettingsForm where
  notify_url : Option String
  imap_server : Option String
  imap_user : Option String
  imap_password : Option String
deriving Repr, DecidableEq

/-- The unconditional assignments of app.py lines 428-430. -/
def settings_post_base (u : SUser) (f : SettingsForm) : SUser :=
  { u with
    notify_url := f.notify_url
    imap_server := f.imap_server
    imap_user := f.imap_user }

/-- The settings POST handler (app.py lines 427-436): endpoint, mailbox
server and mailbox username are overwritten with the submitted values; the
mailbox password is overwritten only when the submitted value is truthy and
not whitespace-only. -/
def settings_post (u : SUser) (f : SettingsForm) : SUser :=
  match f.imap_password with
  | some pw =>
    if pw ≠ "" ∧ pyStrip pw ≠ "" then
      { settings_post_base u f with imap_password := some pw }
    else settings_post_base u f
  | none => settings_post_base u f

/-! Theorems. -/

/-- Fusing the status query of check_due_dates into the loop body. -/
theorem check_due_dates_eq_filterMap (today : Int) (bills : List Bill) :
    check_due_dates today bills = bills.filterMap (bill_check today) := by
  induction bills with
  | nil => rfl
  | cons b rest ih =>
    unfold check_due_dates at ih ⊢
    by_cases hb : b.status = "offen"
    · simp [List.filter_cons, List.filterMap_cons, hb, bill_check, ih]
    · simp [List.filter_cons, List.filterMap_cons, hb, bill_check, ih]

/-- C1: one run of the Due-Date Reminder Job evaluates exactly the open
bills; for an open bill with a due date it dispatches an overdue
notification to the bill owner exactly when days-remaining is at most
zero, a reminder exactly when days-remaining is three, and nothing for any
other positive value; paid bills and bills without a due date produce no
notification. -/
theorem C1_reminder_classification (today : Int) (bills : List Bill) (b : Bill) :
    check_due_dates today bills = bills.filterMap (bill_check today) ∧
    (b.status ≠ "offen" → bill_check today b = none) ∧
    (b.due_date = none → bill_check today b = none) ∧
    (b.status = "offen" → ∀ due, b.due_date = some due →
      (due - today ≤ 0 →
        bill_check today b = some (Notif.overdue b.title due b.user_id)) ∧
      (due - today = 3 →
        bill_check today b = some (Notif.reminder b.title b.user_id)) ∧
      (0 < due - today → due - today ≠ 3 → bill_check today b = none)) := by
  refine ⟨check_due_dates_eq_filterMap today bills, ?_, ?_, ?_⟩
  · intro h
    simp [bill_check, h]
  · intro h
    unfold bill_check bill_notif
    rw [h]
    split <;> rfl
  · intro hs due hd
    unfold bill_check bill_notif
    rw [hd]
    refine ⟨?_, ?_, ?_⟩
    · intro hle
      simp [hs, hle]
    · intro h3
      have : ¬ due - today ≤ 0 := by omega
      simp [hs, this, h3]
    · intro hpos hne
      have h1 : ¬ due - today ≤ 0 := by omega
      simp [hs, h1, hne]

/-- Witness for C1 at a concrete run: today is ordinal 1000, a bill due on
ordinal 1003 (three days remaining) gets a reminder addressed to its
owner. -/
theorem C1_reminder_classification_witness :
    bill_check 1000 ⟨1, "Strom", "f.pdf", none, "offen", some 1003, 7⟩
      = some (Notif.reminder "Strom" 7) := by
  have h := C1_reminder_classification 1000 []
    ⟨1, "Strom", "f.pdf", none, "offen", some 1003, 7⟩
  exact (h.2.2.2 rfl 1003 rfl).2.1 (by decide)

/-- C7: the Notification Dispatcher attempts the personal endpoint of the
target user when one is set (the fallback is then not used), else the
process-wide fallback when configured, else it is a no-op; and for every
delivery oracle, failing deliveries included, the attempted endpoints are
exactly the resolved ones, so a failure never propagates. -/
theorem C7_dispatch_resolution (g : Option String)
    (deliver : String → Except String Unit) (user : Option NUser) :
    (∀ u s, user = some u → u.notify_url = some s → s ≠ "" →
      resolve_urls g user = [s]) ∧
    (strOptTruthy (user.bind NUser.notify_url) = false →
      ∀ gs, g = some gs → gs ≠ "" → resolve_urls g user = [gs]) ∧
    (strOptTruthy (user.bind NUser.notify_url) = false →
      strOptTruthy g = false → send_notification g deliver user = []) ∧
    ((send_notification g deliver user).map Prod.fst = resolve_urls g user) := by
  have hempty : strOptTruthy (user.bind NUser.notify_url) = false →
      (match user with
        | some u =>
          match u.notify_url with
          | some s => if s = "" then ([] : List String) else [s]
          | none => []
        | none => []) = [] := by
    intro hf
    rcases user with _ | u
    · rfl
    · have hf2 : strOptTruthy u.notify_url = false := hf
      rcases hnu : u.notify_url with _ | s
      · simp [hnu]
      · rw [hnu] at hf2
        simp [strOptTruthy] at hf2
        simp [hnu, hf2]
  refine ⟨?_, ?_, ?_, ?_⟩
  · intro u s hu hs hne
    subst hu
    unfold resolve_urls
    simp [hs, hne]
  · intro hf gs hg hgne
    subst hg
    unfold resolve_urls
    rw [hempty hf]
    simp [hgne]
  · intro hf hgf
    unfold send_notification resolve_urls
    rw [hempty hf]
    match g with
    | none => rfl
    | some gs =>
      simp only [strOptTruthy] at hgf
      simp at hgf
      simp [hgf]
  · unfold send_notification
    rw [List.map_map]
    simp [Function.comp_def]

/-- Witness for C7: a user with a personal endpoint resolves to it alone, an
empty personal endpoint falls back to the global one, no endpoint at all is
a no-op, and with a failing delivery oracle the attempt list still equals
the resolution. -/
theorem C7_dispatch_resolution_witness :
    resolve_urls (some "g") (some ⟨3, some "p"⟩) = ["p"] ∧
    resolve_urls (some "g") (some ⟨3, some ""⟩) = ["g"] ∧
    send_notification none (fun _ => Except.error "down") (some ⟨3, none⟩) = [] ∧
    (send_notification (some "g") (fun _ => Except.error "down")
        (some ⟨3, some "p"⟩)).map Prod.fst
      = resolve_urls (some "g") (some ⟨3, some "p"⟩) := by
  refine ⟨?_, ?_, ?_, ?_⟩
  · exact (C7_dispatch_resolution (some "g") (fun _ => Except.ok ())
      (some ⟨3, some "p"⟩)).1 ⟨3, some "p"⟩ "p" rfl rfl (by decide)
  · exact (C7_dispatch_resolution (some "g") (fun _ => Except.ok ())
      (some ⟨3, some ""⟩)).2.1 (by decide) "g" rfl (by decide)
  · exact (C7_dispatch_resolution none (fun _ => Except.error "down")
      (some ⟨3, none⟩)).2.2.1 (by decide) (by decide)
  · exact (C7_dispatch_resolution (some "g") (fun _ => Except.error "down")
      (some ⟨3, some "p"⟩)).2.2.2

/-- C9: file serving resolves the owning bill of the requested filename,
primary filenames first, then BillFile rows; no owning bill gives
not-found, an owning bill of another user gives forbidden, and the file is
streamed exactly when the owning bill belongs to the requester. -/
theorem C9_serve_access_control (uid : Nat) (fname : String) (st : AppState) :
    (st.bills.find? (fun b => b.filename == fname) = none →
      st.billfiles.find? (fun f => f.filename == fname) = none →
      serve_file uid fname st = ServeResult.notFound) ∧
    (resolve_bill fname st = none → serve_file uid fname st = ServeResult.notFound) ∧
    (∀ b, resolve_bill fname st = some b → b.user_id ≠ uid →
      serve_file uid fname st = ServeResult.forbidden) ∧
    (∀ b, resolve_bill fname st = some b → b.user_id = uid →
      serve_file uid fname st = ServeResult.ok fname) ∧
    (serve_file uid fname st = ServeResult.ok fname →
      ∃ b, resolve_bill fname st = some b ∧ b.user_id = uid) := by
  refine ⟨?_, ?_, ?_, ?_, ?_⟩
  · intro h1 h2
    unfold serve_file resolve_bill
    rw [h1, h2]
    rfl
  · intro h
    unfold serve_file
    rw [h]
  · intro b hb hne
    unfold serve_file
    rw [hb]
    simp [hne]
  · intro b hb heq
    unfold serve_file
    rw [hb]
    simp [heq]
  · intro hok
    unfold serve_file at hok
    cases hres : resolve_bill fname st with
    | none =>
      rw [hres] at hok
      simp at hok
    | some b =>
      rw [hres] at hok
      by_cases hu : b.user_id = uid
      · exact ⟨b, rfl, hu⟩
      · simp [hu] at hok

/-- Witness for C9 on a concrete store: a filename reachable only through a
BillFile row is served to the owner, is forbidden to another user, and an
unknown filename is not found. -/
theorem C9_serve_access_control_witness :
    serve_file 5 "x2.jpg"
        ⟨[⟨1, "T", "main.pdf", none, "offen", none, 5⟩],
         [⟨11, 1, "x2.jpg"⟩], ["main.pdf", "x2.jpg"]⟩
      = ServeResult.ok "x2.jpg" ∧
    serve_file 6 "x2.jpg"
        ⟨[⟨1, "T", "main.pdf", none, "offen", none, 5⟩],
         [⟨11, 1, "x2.jpg"⟩], ["main.pdf", "x2.jpg"]⟩
      = ServeResult.forbidden ∧
    serve_file 5 "zzz.pdf"
        ⟨[⟨1, "T", "main.pdf", none, "offen", none, 5⟩],
         [⟨11, 1, "x2.jpg"⟩], ["main.pdf", "x2.jpg"]⟩
      = ServeResult.notFound := by
  refine ⟨?_, ?_, ?_⟩
  · exact (C9_serve_access_control 5 "x2.jpg" _).2.2.2.1
      ⟨1, "T", "main.pdf", none, "offen", none, 5⟩ (by decide) rfl
  · exact (C9_serve_access_control 6 "x2.jpg" _).2.2.1
      ⟨1, "T", "main.pdf", none, "offen", none, 5⟩ (by decide) (by decide)
  · exact (C9_serve_access_control 5 "zzz.pdf" _).1 (by decide) (by decide)

/-- C10: a settings update whose submitted mailbox password is empty or
whitespace-only leaves the stored mailbox password unchanged while the
notification endpoint, mailbox server and mailbox username are overwritten
with the submitted values (empty values included), and no other user field
is modified. -/
theorem C10_settings_password_frame (u : SUser) (f : SettingsForm) (pw : String)
    (hf : f.imap_password = some pw) (hws : pyStrip pw = "") :
    settings_post u f =
      { u with
        notify_url := f.notify_url
        imap_server := f.imap_server
        imap_user := f.imap_user } := by
  have hbase : settings_post u f = settings_post_base u f := by
    unfold settings_post
    rw [hf]
    exact if_neg (fun h => h.2 hws)
  rw [hbase]
  rfl

/-- Witness for C10: a whitespace-only password submission keeps the old
password while the three other settings fields are overwritten. -/
theorem C10_settings_password_frame_witness :
    settings_post ⟨"a@b", none, none, none, none, none, some "old"⟩
        ⟨some "u", some "s", some "", some "   "⟩
      = ⟨"a@b", none, none, some "u", some "s", some "", some "old"⟩ := by
  exact C10_settings_password_frame
    ⟨"a@b", none, none, none, none, none, some "old"⟩
    ⟨some "u", some "s", some "", some "   "⟩ "   " rfl rfl

/-- C2 counterexample: a payload whose date string does not match the exact
zero-padded year-month-day pattern (strptime also accepts unpadded
components) and whose amount is a non-numeric string.  The claim says the
amount would be dropped; the code keeps both the parsed date and the
non-numeric amount verbatim. -/
theorem C2_counterexample :
    parse_result (Json.obj
        [("title", Json.str "ACME"), ("date", Json.str "2024-3-4"),
         ("amount", Json.str "abc")])
      = some ⟨some (dateOrdinal 2024 3 4), Json.str "ACME", Json.str "abc"⟩ ∧
    (∀ q : Rat, Json.str "abc" ≠ Json.num q) := by
  refine ⟨rfl, ?_⟩
  intro q h
  cases h

/-- C2 amended: field validation is independent for the date and the title,
with the date accepted exactly when strptime parses it (unpadded components
included); the title and the amount are copied verbatim from the payload,
the amount without any numeric validation. -/
theorem C2_amended_field_validation (kvs : List (String × Json)) (s : String)
    (h : jget kvs "date" = Json.str s) :
    (strptime_Ymd s = none →
      parse_result (Json.obj kvs)
        = some ⟨none, jget kvs "title", jget kvs "amount"⟩) ∧
    (∀ d, strptime_Ymd s = some d →
      parse_result (Json.obj kvs)
        = some ⟨some d, jget kvs "title", jget kvs "amount"⟩) := by
  constructor
  · intro hn
    by_cases hs : s = ""
    · subst hs
      simp [parse_result, parse_date_field, h, Json.truthy]
    · simp [parse_result, parse_date_field, h, Json.truthy, hs, hn]
  · intro d hd
    by_cases hs : s = ""
    · subst hs
      have h0 : strptime_Ymd "" = none := rfl
      rw [h0] at hd
      cases hd
    · simp [parse_result, parse_date_field, h, Json.truthy, hs, hd]

/-- Witness for the amended C2: an invalid date is dropped while the valid
title and amount of the same payload survive, and a valid date is kept. -/
theorem C2_amended_field_validation_witness :
    parse_result (Json.obj
        [("title", Json.str "ACME"), ("date", Json.str "03/14/2024"),
         ("amount", Json.num 12)])
      = some ⟨none, Json.str "ACME", Json.num 12⟩ ∧
    parse_result (Json.obj
        [("title", Json.str "ACME"), ("date", Json.str "2024-01-02"),
         ("amount", Json.num 12)])
      = some ⟨some (dateOrdinal 2024 1 2), Json.str "ACME", Json.num 12⟩ := by
  constructor
  · exact (C2_amended_field_validation
      [("title", Json.str "ACME"), ("date", Json.str "03/14/2024"),
       ("amount", Json.num 12)] "03/14/2024" rfl).1 rfl
  · exact (C2_amended_field_validation
      [("title", Json.str "ACME"), ("date", Json.str "2024-01-02"),
       ("amount", Json.num 12)] "2024-01-02" rfl).2 (dateOrdinal 2024 1 2) rfl

/-- C3: the Extraction Client is a total function into an optional result,
and returns no result when the API key is unconfigured, when the media kind
resolved from the file extension is not supported, when the network call
errors, and when the fence-stripped response text is not valid JSON. -/
theorem C3_fails_closed :
    (∀ key fp net loads, analyze_bill_ai key fp net loads = none ∨
      ∃ r, analyze_bill_ai key fp net loads = some r) ∧
    (∀ key fp net loads, strOptTruthy key = false →
      analyze_bill_ai key fp net loads = none) ∧
    (∀ key fp net loads, (∀ e, extOf fp = some e → mimeOf e = none) →
      analyze_bill_ai key fp net loads = none) ∧
    (∀ key fp err loads,
      analyze_bill_ai key fp (Except.error err) loads = none) ∧
    (∀ key fp text loads,
      loads (pyStrip (strip_fence (pyStrip text))) = none →
      analyze_bill_ai key fp (Except.ok text) loads = none) := by
  refine ⟨?_, ?_, ?_, ?_, ?_⟩
  · intro key fp net loads
    cases h : analyze_bill_ai key fp net loads with
    | none => exact Or.inl rfl
    | some r => exact Or.inr ⟨r, rfl⟩
  · intro key fp net loads hk
    simp [analyze_bill_ai, hk]
  · intro key fp net loads h
    unfold analyze_bill_ai
    by_cases hk : strOptTruthy key = false
    · simp [hk]
    · rw [if_neg hk]
      cases hext : extOf fp with
      | none => rfl
      | some e => simp [h e hext]
  · intro key fp err loads
    unfold analyze_bill_ai
    split
    · rfl
    · split
      · rfl
      · split
        · rfl
        · rfl
  · intro key fp text loads hl
    unfold analyze_bill_ai
    split
    · rfl
    · split
      · rfl
      · split
        · rfl
        · simp [hl]

/-- Witness for C3: no API key, an unsupported docx file, a network error
and an unparseable response each yield no result at concrete inputs. -/
theorem C3_fails_closed_witness :
    analyze_bill_ai none "inv.pdf" (Except.ok "x")
      (fun _ => some (Json.obj [])) = none ∧
    analyze_bill_ai (some "k") "inv.docx" (Except.ok "x")
      (fun _ => some (Json.obj [])) = none ∧
    analyze_bill_ai (some "k") "inv.pdf" (Except.error "connection reset")
      (fun _ => some (Json.obj [])) = none ∧
    analyze_bill_ai (some "k") "inv.pdf" (Except.ok "no json here")
      (fun _ => none) = none := by
  refine ⟨?_, ?_, ?_, ?_⟩
  · exact C3_fails_closed.2.1 none "inv.pdf" (Except.ok "x")
      (fun _ => some (Json.obj [])) rfl
  · refine C3_fails_closed.2.2.1 (some "k") "inv.docx" (Except.ok "x")
      (fun _ => some (Json.obj [])) ?_
    intro e he
    have he2 : (some "docx" : Option String) = some e := he
    cases he2
    rfl
  · exact C3_fails_closed.2.2.2.1 (some "k") "inv.pdf" "connection reset"
      (fun _ => some (Json.obj []))
  · exact C3_fails_closed.2.2.2.2 (some "k") "inv.pdf" "no json here"
      (fun _ => none) rfl

/-- C4 counterexample: an extraction result with the empty string as title
and zero as amount.  Both fields are present and non-null, yet the created
bill falls back to the message subject and has no amount, because the code
tests Python truthiness, not presence. -/
theorem C4_counterexample :
    resolve_due 1000 (some ⟨none, Json.str "", Json.num 0⟩) = 1030 ∧
    resolve_title "Stromrechnung Mai" (some ⟨none, Json.str "", Json.num 0⟩)
      = Json.str "Stromrechnung Mai" ∧
    resolve_title "Stromrechnung Mai" (some ⟨none, Json.str "", Json.num 0⟩)
      ≠ Json.str "" ∧
    resolve_amount (some ⟨none, Json.str "", Json.num 0⟩) = none ∧
    resolve_amount (some ⟨none, Json.str "", Json.num 0⟩)
      ≠ some (Json.num 0) := by
  refine ⟨rfl, rfl, ?_, rfl, ?_⟩
  · intro h
    injection h with h2
    exact absurd h2 (by decide)
  · intro h
    cases h

/-- C4 amended: the due date of a bill created by the ingestion job is the
extracted date when one was produced, else ingestion date plus thirty days
(and by type it is never null); the title is the extracted title when
truthy, else the subject truncated to one hundred characters; the amount is
the extracted amount when truthy, else absent. -/
theorem C4_amended_field_resolution (today : Int) (subject : String)
    (ai : Option AIResult) :
    (ai = none →
      resolve_due today ai = today + 30 ∧
      resolve_title subject ai = Json.str (pyTake subject 100) ∧
      resolve_amount ai = none) ∧
    (∀ r, ai = some r →
      (∀ d, r.date = some d → resolve_due today ai = d) ∧
      (r.date = none → resolve_due today ai = today + 30) ∧
      (r.title.truthy = true → resolve_title subject ai = r.title) ∧
      (r.title.truthy = false →
        resolve_title subject ai = Json.str (pyTake subject 100)) ∧
      (r.amount.truthy = true → resolve_amount ai = some r.amount) ∧
      (r.amount.truthy = false → resolve_amount ai = none)) := by
  constructor
  · intro h
    subst h
    exact ⟨rfl, rfl, rfl⟩
  · intro r h
    subst h
    refine ⟨?_, ?_, ?_, ?_, ?_, ?_⟩
    · intro d hd
      simp [resolve_due, hd]
    · intro hd
      simp [resolve_due, hd]
    · intro ht
      simp [resolve_title, ht]
    · intro ht
      simp [resolve_title, ht]
    · intro ha
      simp [resolve_amount, ha]
    · intro ha
      simp [resolve_amount, ha]

/-- Witness for the amended C4: a truthy extraction fills all three fields,
and a failed extraction yields the defaults. -/
theorem C4_amended_field_resolution_witness :
    resolve_due 1000 (some ⟨some 738887, Json.str "EWZ", Json.num 42⟩)
      = 738887 ∧
    resolve_title "Betreff" (some ⟨some 738887, Json.str "EWZ", Json.num 42⟩)
      = Json.str "EWZ" ∧
    resolve_amount (some ⟨some 738887, Json.str "EWZ", Json.num 42⟩)
      = some (Json.num 42) ∧
    resolve_due 1000 none = 1030 ∧
    resolve_title "Betreff" none = Json.str "Betreff" ∧
    resolve_amount none = none := by
  refine ⟨?_, ?_, ?_, ?_, ?_, ?_⟩
  · exact ((C4_amended_field_resolution 1000 "Betreff"
      (some ⟨some 738887, Json.str "EWZ", Json.num 42⟩)).2 _ rfl).1 738887 rfl
  · exact ((C4_amended_field_resolution 1000 "Betreff"
      (some ⟨some 738887, Json.str "EWZ", Json.num 42⟩)).2 _ rfl).2.2.1 rfl
  · exact ((C4_amended_field_resolution 1000 "Betreff"
      (some ⟨some 738887, Json.str "EWZ", Json.num 42⟩)).2 _ rfl).2.2.2.2.1 (by decide)
  · exact ((C4_amended_field_resolution 1000 "Betreff" none).1 rfl).1
  · exact ((C4_amended_field_resolution 1000 "Betreff" none).1 rfl).2.1
  · exact ((C4_amended_field_resolution 1000 "Betreff" none).1 rfl).2.2

/-- The attachment loop only ever appends to the Bill table. -/
theorem process_attachments_extends (cf : List NewBill → NewBill → Bool)
    (ts : Nat) (today : Int) (ai : String → Option AIResult) (owner : Nat)
    (subject : String) :
    ∀ (atts : List Attachment) (db : List NewBill) (fd : Bool),
      ∃ tl, (process_attachments cf ts today ai owner subject atts db fd).1
        = db ++ tl := by
  intro atts
  induction atts with
  | nil =>
    intro db fd
    exact ⟨[], by simp [process_attachments]⟩
  | cons a rest ih =>
    intro db fd
    unfold process_attachments
    by_cases hp : att_is_pdf a = true
    · simp only [hp, if_true]
      by_cases hc : cf db (mail_bill ts today ai owner subject a) = true
      · simp only [hc, if_true]
        exact ih db fd
      · simp only [Bool.not_eq_true] at hc
        simp only [hc, Bool.false_eq_true, if_false]
        obtain ⟨tl, htl⟩ := ih (db ++ [mail_bill ts today ai owner subject a]) true
        exact ⟨[mail_bill ts today ai owner subject a] ++ tl,
          by rw [htl, List.append_assoc]⟩
    · simp only [Bool.not_eq_true] at hp
      simp only [hp, Bool.false_eq_true, if_false]
      exact ih db fd

/-- The found flag of the attachment loop is set exactly by a successful
commit: either nothing was committed (flag and table unchanged) or the flag
is set and the table grew. -/
theorem process_attachments_growth (cf : List NewBill → NewBill → Bool)
    (ts : Nat) (today : Int) (ai : String → Option AIResult) (owner : Nat)
    (subject : String) :
    ∀ (atts : List Attachment) (db : List NewBill) (fd : Bool),
      ((process_attachments cf ts today ai owner subject atts db fd).2 = fd ∧
        (process_attachments cf ts today ai owner subject atts db fd).1 = db) ∨
      ((process_attachments cf ts today ai owner subject atts db fd).2 = true ∧
        db.length
          < (process_attachments cf ts today ai owner subject atts db fd).1.length) := by
  intro atts
  induction atts with
  | nil =>
    intro db fd
    exact Or.inl ⟨rfl, rfl⟩
  | cons a rest ih =>
    intro db fd
    unfold process_attachments
    by_cases hp : att_is_pdf a = true
    · simp only [hp, if_true]
      by_cases hc : cf db (mail_bill ts today ai owner subject a) = true
      · simp only [hc, if_true]
        exact ih db fd
      · simp only [Bool.not_eq_true] at hc
        simp only [hc, Bool.false_eq_true, if_false]
        rcases ih (db ++ [mail_bill ts today ai owner subject a]) true with
          ⟨h1, h2⟩ | ⟨h1, h2⟩
        · refine Or.inr ⟨h1, ?_⟩
          rw [h2]
          simp
        · refine Or.inr ⟨h1, ?_⟩
          calc db.length
              < (db ++ [mail_bill ts today ai owner subject a]).length := by simp
            _ < _ := h2
    · simp only [Bool.not_eq_true] at hp
      simp only [hp, Bool.false_eq_true, if_false]
      exact ih db fd

/-- A message none of whose attachments passes the pdf filter leaves the
loop state untouched. -/
theorem process_attachments_no_pdf (cf : List NewBill → NewBill → Bool)
    (ts : Nat) (today : Int) (ai : String → Option AIResult) (owner : Nat)
    (subject : String) :
    ∀ (atts : List Attachment), (∀ a ∈ atts, att_is_pdf a = false) →
      ∀ (db : List NewBill) (fd : Bool),
        process_attachments cf ts today ai owner subject atts db fd = (db, fd) := by
  intro atts
  induction atts with
  | nil =>
    intro _ db fd
    rfl
  | cons a rest ih =>
    intro h db fd
    unfold process_attachments
    have ha : att_is_pdf a = false := h a (List.mem_cons_self a rest)
    simp only [ha, Bool.false_eq_true, if_false]
    exact ih (fun x hx => h x (List.mem_cons_of_mem a hx)) db fd

/-- C5: a failing commit rolls back only its own record (the loop continues
on the remaining attachments from the unchanged table), every bill already
in the table is preserved by the whole loop, and after one message the
remaining messages are still processed from the resulting state. -/
theorem C5_commit_failure_isolation (cf : List NewBill → NewBill → Bool)
    (ts : Nat) (today : Int) (ai : String → Option AIResult) (owner : Nat)
    (subject : String) :
    (∀ a rest db fd, att_is_pdf a = true →
      cf db (mail_bill ts today ai owner subject a) = true →
      process_attachments cf ts today ai owner subject (a :: rest) db fd
        = process_attachments cf ts today ai owner subject rest db fd) ∧
    (∀ atts db fd, ∃ tl,
      (process_attachments cf ts today ai owner subject atts db fd).1 = db ++ tl) ∧
    (∀ (m : MailMsg) (ms : List MailMsg) (db : List NewBill),
      process_mailbox cf ts today ai owner (m :: ms) db
        = ((process_mailbox cf ts today ai owner ms
              (process_message cf ts today ai owner m db).1).1,
           (process_message cf ts today ai owner m db).2
             ++ (process_mailbox cf ts today ai owner ms
                  (process_message cf ts today ai owner m db).1).2)) := by
  refine ⟨?_, ?_, ?_⟩
  · intro a rest db fd hp hc
    simp only [process_attachments, hp, hc, if_true]
  · exact process_attachments_extends cf ts today ai owner subject
  · intro m ms db
    rfl

/-- Witness for C5: with a commit oracle that reports a uniqueness
violation on a duplicate stored filename, a message with two identically
named pdf attachments (same timestamp second) commits the first, rolls the
second one back and continues: the prior table survives as a proper prefix
and the following message is still processed. -/
theorem C5_commit_failure_isolation_witness :
    process_attachments
        (fun db nb => db.any (fun x => x.filename == nb.filename)) 5 1000
        (fun _ => none) 7 "S"
        (⟨some "a.pdf"⟩ :: [⟨some "b.pdf"⟩])
        [mail_bill 5 1000 (fun _ => none) 7 "S" ⟨some "a.pdf"⟩] true
      = process_attachments
          (fun db nb => db.any (fun x => x.filename == nb.filename)) 5 1000
          (fun _ => none) 7 "S" [⟨some "b.pdf"⟩]
          [mail_bill 5 1000 (fun _ => none) 7 "S" ⟨some "a.pdf"⟩] true := by
  exact (C5_commit_failure_isolation
      (fun db nb => db.any (fun x => x.filename == nb.filename)) 5 1000
      (fun _ => none) 7 "S").1
    ⟨some "a.pdf"⟩ [⟨some "b.pdf"⟩]
    [mail_bill 5 1000 (fun _ => none) 7 "S" ⟨some "a.pdf"⟩] true
    rfl rfl

/-- C6: a message dispatches exactly one imported notification to the
owning user when its processing added at least one bill to the table, and
none when it added none; in particular a message whose attachments all fail
the pdf filter (for example a single docx) creates no bill and no
notification.  The notification is appended after the attachment loop has
finished, as the structure of process_message shows. -/
theorem C6_one_notification_per_message (cf : List NewBill → NewBill → Bool)
    (ts : Nat) (today : Int) (ai : String → Option AIResult) (owner : Nat)
    (m : MailMsg) (db : List NewBill) :
    ((process_message cf ts today ai owner m db).1 ≠ db →
      (process_message cf ts today ai owner m db).2
        = [Notif.imported m.subject owner]) ∧
    ((process_message cf ts today ai owner m db).1 = db →
      (process_message cf ts today ai owner m db).2 = []) ∧
    ((∀ a ∈ m.attachments, att_is_pdf a = false) →
      process_message cf ts today ai owner m db = (db, [])) := by
  unfold process_message
  by_cases he : m.attachments.isEmpty = true
  · rw [if_pos he]
    exact ⟨fun h => absurd rfl h, fun _ => rfl, fun _ => rfl⟩
  · rw [if_neg he]
    rcases process_attachments_growth cf ts today ai owner m.subject
        m.attachments db false with ⟨h1, h2⟩ | ⟨h1, h2⟩
    · refine ⟨?_, ?_, ?_⟩
      · intro hne
        exact absurd h2 hne
      · intro _
        simp only [h1, Bool.false_eq_true, if_false]
      · intro hall
        rw [process_attachments_no_pdf cf ts today ai owner m.subject
          m.attachments hall db false]
        simp
    · refine ⟨?_, ?_, ?_⟩
      · intro _
        simp only [h1, if_true]
      · intro heq
        rw [heq] at h2
        exact absurd h2 (lt_irrefl _)
      · intro hall
        rw [process_attachments_no_pdf cf ts today ai owner m.subject
          m.attachments hall db false]
        simp

/-- Witness for C6: a message whose only attachment is a docx yields zero
bills and zero notifications. -/
theorem C6_one_notification_per_message_witness :
    process_message (fun db nb => db.any (fun x => x.filename == nb.filename))
        5 1000 (fun _ => none) 7 ⟨"Offerte", [⟨some "offer.docx"⟩]⟩ []
      = ([], []) := by
  exact (C6_one_notification_per_message
      (fun db nb => db.any (fun x => x.filename == nb.filename)) 5 1000
      (fun _ => none) 7 ⟨"Offerte", [⟨some "offer.docx"⟩]⟩ []).2.2 (by decide)

/-- C8: deleting an owned bill removes the bill row, every BillFile row of
that bill, and every underlying stored file (the primary filename and each
BillFile filename) from the upload store, while every other row and file
survives; an id with no matching owned bill, an already-deleted id
included, yields not-found (the route aborts before touching any state). -/
theorem C8_delete_cascade (uid bid : Nat) (st : AppState) :
    ((∀ b ∈ st.bills, ¬(b.id = bid ∧ b.user_id = uid)) →
      delete_bill uid bid st = none) ∧
    (∀ bill, st.bills.find? (fun b => b.id == bid && b.user_id == uid)
        = some bill →
      ∃ st', delete_bill uid bid st = some st' ∧
        (∀ b ∈ st'.bills, b.id ≠ bill.id) ∧
        (∀ b ∈ st.bills, b.id ≠ bill.id → b ∈ st'.bills) ∧
        (∀ f ∈ st'.billfiles, f.bill_id ≠ bill.id) ∧
        (∀ f ∈ st.billfiles, f.bill_id ≠ bill.id → f ∈ st'.billfiles) ∧
        bill.filename ∉ st'.fs ∧
        (∀ f ∈ st.billfiles, f.bill_id = bill.id → f.filename ∉ st'.fs) ∧
        (∀ n ∈ st.fs, n ≠ bill.filename →
          (∀ f ∈ st.billfiles, f.bill_id = bill.id → n ≠ f.filename) →
          n ∈ st'.fs)) ∧
    (∀ st', delete_bill uid bid st = some st' →
      delete_bill uid bid st' = none) := by
  refine ⟨?_, ?_, ?_⟩
  · intro h
    have hf : st.bills.find? (fun b => b.id == bid && b.user_id == uid)
        = none := by
      rw [List.find?_eq_none]
      intro b hb
      simp only [Bool.and_eq_true, beq_iff_eq]
      exact fun hc => h b hb hc
    unfold delete_bill
    rw [hf]
  · intro bill hfind
    unfold delete_bill
    rw [hfind]
    refine ⟨_, rfl, ?_, ?_, ?_, ?_, ?_, ?_, ?_⟩
    · intro b hb
      rw [List.mem_filter] at hb
      simpa using hb.2
    · intro b hb hne
      rw [List.mem_filter]
      exact ⟨hb, by simpa using hne⟩
    · intro f hf
      rw [List.mem_filter] at hf
      simpa using hf.2
    · intro f hf hne
      rw [List.mem_filter]
      exact ⟨hf, by simpa using hne⟩
    · intro hmem
      rw [List.mem_filter] at hmem
      have := of_decide_eq_true hmem.2
      exact this (List.mem_cons_self _ _)
    · intro f hf hfb hmem
      rw [List.mem_filter] at hmem
      have hnin := of_decide_eq_true hmem.2
      apply hnin
      apply List.mem_cons_of_mem
      rw [List.mem_map]
      refine ⟨f, ?_, rfl⟩
      rw [List.mem_filter]
      exact ⟨hf, by simpa using hfb⟩
    · intro n hn hnp hnf
      rw [List.mem_filter]
      refine ⟨hn, decide_eq_true ?_⟩
      intro hmem
      rcases List.mem_cons.mp hmem with h1 | h1
      · exact hnp h1
      · rw [List.mem_map] at h1
        obtain ⟨f, hf1, hf2⟩ := h1
        rw [List.mem_filter] at hf1
        exact hnf f hf1.1 (by simpa using hf1.2) hf2.symm
  · intro st' hdel
    unfold delete_bill at hdel ⊢
    cases hfind : st.bills.find? (fun b => b.id == bid && b.user_id == uid) with
    | none =>
      rw [hfind] at hdel
      cases hdel
    | some bill =>
      rw [hfind] at hdel
      have hbid : bill.id = bid := by
        have hp := List.find?_some hfind
        simp only [Bool.and_eq_true, beq_iff_eq] at hp
        exact hp.1
      have hst : st'.bills
          = st.bills.filter (fun b => !(b.id == bill.id)) := by
        cases hdel
        rfl
      have hnone : st'.bills.find?
          (fun b => b.id == bid && b.user_id == uid) = none := by
        rw [List.find?_eq_none]
        intro b hb
        rw [hst, List.mem_filter] at hb
        have hne : b.id ≠ bill.id := by simpa using hb.2
        simp only [Bool.and_eq_true, beq_iff_eq]
        rintro ⟨h1, _⟩
        exact hne (h1.trans hbid.symm)
      rw [hnone]

/-- Witness for C8 on a concrete store: deleting bill 1 of user 5 removes
the bill, both of its BillFile rows and all three stored files, leaves an
unrelated file alone, deleting a missing id yields not-found, and deleting
the same id again yields not-found. -/
theorem C8_delete_cascade_witness :
    delete_bill 5 2
        ⟨[⟨1, "T", "main.pdf", none, "offen", none, 5⟩],
         [⟨10, 1, "a1.pdf"⟩, ⟨11, 1, "a2.jpg"⟩],
         ["main.pdf", "a1.pdf", "a2.jpg", "other.pdf"]⟩ = none ∧
    (∃ st', delete_bill 5 1
        ⟨[⟨1, "T", "main.pdf", none, "offen", none, 5⟩],
         [⟨10, 1, "a1.pdf"⟩, ⟨11, 1, "a2.jpg"⟩],
         ["main.pdf", "a1.pdf", "a2.jpg", "other.pdf"]⟩ = some st' ∧
      "main.pdf" ∉ st'.fs ∧ "other.pdf" ∈ st'.fs ∧
      delete_bill 5 1 st' = none) := by
  constructor
  · exact (C8_delete_cascade 5 2
      ⟨[⟨1, "T", "main.pdf", none, "offen", none, 5⟩],
       [⟨10, 1, "a1.pdf"⟩, ⟨11, 1, "a2.jpg"⟩],
       ["main.pdf", "a1.pdf", "a2.jpg", "other.pdf"]⟩).1 (by decide)
  · obtain ⟨st', hdel, _, _, _, _, h6, h7, h8⟩ :=
      (C8_delete_cascade 5 1
        ⟨[⟨1, "T", "main.pdf", none, "offen", none, 5⟩],
         [⟨10, 1, "a1.pdf"⟩, ⟨11, 1, "a2.jpg"⟩],
         ["main.pdf", "a1.pdf", "a2.jpg", "other.pdf"]⟩).2.1
      ⟨1, "T", "main.pdf", none, "offen", none, 5⟩ rfl
    refine ⟨st', hdel, h6, ?_, (C8_delete_cascade 5 1
        ⟨[⟨1, "T", "main.pdf", none, "offen", none, 5⟩],
         [⟨10, 1, "a1.pdf"⟩, ⟨11, 1, "a2.jpg"⟩],
         ["main.pdf", "a1.pdf", "a2.jpg", "other.pdf"]⟩).2.2 st' hdel⟩
    apply h8 "other.pdf" (by decide) (by decide)
    intro f hf hfb
    rcases List.mem_cons.mp hf with h1 | h1
    · rw [h1]
      decide
    · rcases List.mem_cons.mp h1 with h2 | h2
      · rw [h2]
        decide
      · cases h2

end BillTracker
